import Mathlib

/-!
Shallow embedding of the time-zone core of `src/app.py` (TimeZoneWebservice).

Modelling conventions:
* An instant is an integer number of seconds since the epoch (`Int`).
* A `Zone` models a Python `tzinfo` object by its observable behaviour:
  `offsetAt t` is the UTC offset, in whole seconds, that `utcoffset()`
  reports for an aware datetime at UTC instant `t`; `offsetAtWall w` is the
  offset the zone attributes to a naive wall-clock reading `w` when it is
  attached via `replace(tzinfo=...)`.  The Python `datetime.timezone` fixed
  zones have both constant (`fixedZone`); `ZoneInfo` zones may vary.
* The IANA database (`zoneinfo.ZoneInfo`) is external to the repository, so
  it is a parameter `iana : String → Option Zone`: `none` models
  `ZoneInfoNotFoundError`.
* `difference` computes `delta` with Python floats; offsets are whole
  seconds, so the quantities involved are exact rationals with denominator
  dividing 3600 and we model the arithmetic exactly over integers.
  In Python 3 `round` rounds half to even, modelled by `pyRound60`.
-/

deriving instance DecidableEq for Except

/-- A time zone, abstracted to the two offset queries the code performs.
Offsets are in whole seconds (Python reports them as `timedelta`s with
whole-second precision). -/
structure Zone where
  offsetAt : Int → Int
  offsetAtWall : Int → Int

/-- A fixed-offset zone: `datetime.timezone(timedelta(seconds=s))`.  Its
offset is the same constant for every instant and every wall-clock reading. -/
def fixedZone (s : Int) : Zone :=
  { offsetAt := fun _ => s, offsetAtWall := fun _ => s }

/-- The Python format `f"{n:02d}"` for a natural number: zero-pad to two digits. -/
def pad2 (n : Nat) : String :=
  if n < 10 then "0" ++ Nat.repr n else Nat.repr n

/-- The Python format `f"{h:+03d}"`: an explicit sign followed by the magnitude
zero-padded to two digits (total minimum width 3 including the sign). -/
def fmtSigned3 (h : Int) : String :=
  (if 0 ≤ h then "+" else "-") ++ pad2 h.natAbs

/-- The hour values enumerated by `_build_code_map`:
`range(-12, 15)` skipping `0`. -/
def hourRange : List Int :=
  ((List.range 27).map (fun i => (i : Int) - 12)).filter (fun h => h != 0)

/-- The fixed alias table `CODE_TO_TZ` built by `_build_code_map`.  Each
entry maps a code to the fixed UTC offset in seconds of the
`datetime.timezone` stored there (`timedelta(hours=h).total_seconds()`).
The generated names use `f"UTC{h:+03d}:00"`; the curated aliases follow.
All keys are distinct, so association-list lookup matches `dict.get`. -/
def CODE_TO_TZ : List (String × Int) :=
  (hourRange.map (fun h => ("UTC" ++ fmtSigned3 h ++ ":00", 3600 * h)))
  ++ [("UTC", 0), ("GMT", 0), ("CET", 3600), ("CEST", 7200),
      ("EST", -18000), ("EDT", -14400), ("CST", -21600), ("CDT", -18000),
      ("MST", -25200), ("MDT", -21600), ("PST", -28800), ("PDT", -25200),
      ("BST", 3600), ("IST", 19800)]

/-- The `KeyError(tz_name)` raised by `_resolve_tz`, which the spec calls
`UnknownZoneError(code)`. -/
structure UnknownZoneError where
  code : String
deriving DecidableEq, Repr

/-- Model of `_resolve_tz`: look the name up in `CODE_TO_TZ` (case-sensitive exact
match); on a miss try `ZoneInfo(tz_name)`; if that also fails raise
`KeyError(tz_name)`. -/
def _resolve_tz (iana : String → Option Zone) (tz_name : String) :
    Except UnknownZoneError Zone :=
  match CODE_TO_TZ.lookup tz_name with
  | some s => .ok (fixedZone s)
  | none =>
    match iana tz_name with
    | some z => .ok z
    | none => .error { code := tz_name }

/-- Model of `fmt_offset`: renders the UTC offset of the zone at the CURRENT time
(`datetime.now(tz).utcoffset()`), so the ambient clock `now` is an explicit
argument here.  `int(offset.total_seconds() // 60)` floors, hence
`Int.fdiv`.  The `or timedelta()` guard is dead for resolvable zones
(`timezone` and `ZoneInfo` never return `None` from `utcoffset`). -/
def fmt_offset (tz : Zone) (now : Int) : String :=
  let total_minutes : Int := Int.fdiv (tz.offsetAt now) 60
  let sign := if 0 ≤ total_minutes then "+" else "-"
  let tm := total_minutes.natAbs
  sign ++ pad2 (tm / 60) ++ ":" ++ pad2 (tm % 60)

/-- Modelled from the spec (section 4.2): `formatOffset` renders a
whole-minute offset as `{sign}{HH}:{MM}`, sign `+` for offsets ≥ 0 and `-`
otherwise, hours and minutes of the magnitude each zero-padded to two
digits.  Used to compare `fmt_offset` from the code with the contract of the spec. -/
def specRenderOffset (minutes : Int) : String :=
  (if 0 ≤ minutes then "+" else "-")
  ++ pad2 (minutes.natAbs / 60) ++ ":" ++ pad2 (minutes.natAbs % 60)

/-- Modelled from the spec (section 4.2): `formatOffset(zone, at)` computes
the UTC offset of the zone at `at` in whole minutes and renders it. -/
def specFormatOffset (z : Zone) (t : Int) : String :=
  specRenderOffset (Int.fdiv (z.offsetAt t) 60)

/-- Python 3 `round(fracSec / 60)` for `0 ≤ fracSec`: round half to
even.  `fracSec` is the fractional part of the delta in seconds. -/
def pyRound60 (fracSec : Nat) : Nat :=
  let q := fracSec / 60
  let r := fracSec % 60
  if r < 30 then q
  else if 30 < r then q + 1
  else if q % 2 = 0 then q else q + 1

/-- The dictionary built by `difference`.  `a` and `b` are the aware
datetimes `at.astimezone(...)`, recorded by their local wall-clock reading
(shared UTC instant plus the offset of the zone). -/
structure DiffResult where
  a : Int
  b : Int
  hours : Int
  minutes : Int
  sign : Int
  h : Nat
  m : Nat
  pretty : String
  direction : String
  pretty_abs : String
  description : String
deriving DecidableEq, Repr

/-- The body of `difference` after both zones are resolved (lines 86-108
of `src/app.py`): offsets at the shared instant `t`, the signed delta,
truncated hours, rounded minutes, and the rendered strings.
`delta = deltaSec / 3600` in hours; `sign` compares `delta` with 0, which
is the sign of `deltaSec`; `h = int(abs(delta))` truncates, i.e.
`natAbs / 3600`; `m = int(round((abs(delta) - h) * 60))` rounds the
fractional part `natAbs % 3600` seconds to minutes. -/
def diffResult (za zb : Zone) (tz_a tz_b : String) (t : Int) : DiffResult :=
  let offset_a := za.offsetAt t
  let offset_b := zb.offsetAt t
  let deltaSec := offset_b - offset_a
  let sign : Int := if 0 < deltaSec then 1 else if deltaSec < 0 then -1 else 0
  let h : Nat := deltaSec.natAbs / 3600
  let m : Nat := pyRound60 (deltaSec.natAbs % 3600)
  let pretty_abs := Nat.repr h ++ "h " ++ pad2 m ++ "m"
  let direction :=
    if 0 < sign then "ahead of" else if sign < 0 then "behind" else "the same time as"
  let description :=
    if sign = 0 then tz_b ++ " is the same time as " ++ tz_a
    else tz_b ++ " is " ++ pretty_abs ++ " " ++ direction ++ " " ++ tz_a
  { a := t + offset_a, b := t + offset_b,
    hours := sign * (h : Int), minutes := sign * (m : Int),
    sign := sign, h := h, m := m,
    pretty := (if 0 ≤ deltaSec then "+" else "-") ++ Nat.repr h ++ "h " ++ pad2 m ++ "m",
    direction := direction, pretty_abs := pretty_abs, description := description }

/-- Model of `difference(tz_a, tz_b, at)`: resolve `tz_a`, then `tz_b` (a raised
`KeyError` propagates, in that order), then compute the comparison at the
shared instant `t`. -/
def difference (iana : String → Option Zone) (tz_a tz_b : String) (t : Int) :
    Except UnknownZoneError DiffResult :=
  match _resolve_tz iana tz_a with
  | .error e => .error e
  | .ok za =>
    match _resolve_tz iana tz_b with
    | .error e => .error e
    | .ok zb => .ok (diffResult za zb tz_a tz_b t)

/-- The conversion step of the `/api/compare` handler: with an explicit `time`
parameter the naive wall-clock reading `naive` gets the tzinfo of zone A
attached (`datetime.fromisoformat(time_str).replace(tzinfo=_resolve_tz(my_tz))`),
so the UTC instant handed to `difference` is `naive` minus the offset the
zone attributes to that wall-clock reading; without it the current instant
`now` is used. -/
def api_compare (iana : String → Option Zone) (my_tz other_tz : String)
    (time_str : Option Int) (now : Int) : Except UnknownZoneError DiffResult :=
  match _resolve_tz iana my_tz with
  | .error e => .error e
  | .ok z =>
    let dt : Int :=
      match time_str with
      | some naive => naive - z.offsetAtWall naive
      | none => now
    difference iana my_tz other_tz dt

/-- Whether a string has exactly the shape the spec requires of a
formatted offset: a sign character, two digits, a colon, two digits. -/
def offsetPatternOk (s : String) : Bool :=
  match s.data with
  | [c0, c1, c2, c3, c4, c5] =>
    (c0 == '+' || c0 == '-') && c1.isDigit && c2.isDigit
      && (c3 == ':') && c4.isDigit && c5.isDigit
  | _ => false

/-- A zone whose offset changes from +00:00 to +01:00 at instant 100 —
the shape of an IANA zone crossing a daylight-saving transition. -/
def dstZone : Zone :=
  { offsetAt := fun t => if t < 100 then 0 else 3600,
    offsetAtWall := fun t => if t < 100 then 0 else 3600 }

/-- An IANA database exposing one zone with a second-precision offset of
+2:59:56 (10796 seconds) — the shape of the historic local-mean-time
entries of the real time-zone database, whose offsets are not whole
minutes. -/
def lmtIana : String → Option Zone :=
  fun c => if c = "LMT+2:59:56" then some (fixedZone 10796) else none

/-! ### Helper lemmas -/

/-- For every `n < 100`, `pad2 n` is exactly two digit characters
(boolean form, decidable over `Fin 100`). -/
theorem pad2_check : ∀ i : Fin 100,
    (match (pad2 i.val).data with
      | [c1, c2] => c1.isDigit && c2.isDigit
      | _ => false) = true := by decide

/-- Existential form of `pad2_check`. -/
theorem pad2_two_digits (n : Nat) (hn : n < 100) :
    ∃ c1 c2 : Char, (pad2 n).data = [c1, c2]
      ∧ c1.isDigit = true ∧ c2.isDigit = true := by
  have h := pad2_check ⟨n, hn⟩
  revert h
  cases hd : (pad2 n).data with
  | nil => simp
  | cons a l =>
    cases l with
    | nil => simp
    | cons b l2 =>
      cases l2 with
      | nil =>
        intro h
        simp only [Bool.and_eq_true] at h
        exact ⟨a, b, rfl, h.1, h.2⟩
      | cons cc l3 => simp

/-- When the offset difference is a whole number of minutes, the rounded
minute component of the fractional hour is at most 59. -/
theorem pyRound60_le_of_whole_minute (n : Nat) (h : n % 60 = 0) :
    pyRound60 (n % 3600) ≤ 59 := by
  simp only [pyRound60]
  split_ifs <;> omega

/-! ### Claim theorems -/

/-- C2: `_resolve_tz` first performs a case-sensitive exact lookup in the
fixed alias table and returns that fixed-offset zone on a hit; on a miss it
loads the code from the IANA database; and it fails with
`UnknownZoneError` carrying the code — and in no other way — exactly when
the code is neither a known alias nor a loadable IANA identifier, e.g.
`resolve("Not/AZone")` fails with `UnknownZoneError` when the IANA
database has no such identifier. -/
theorem c2_resolve_spec :
    (∀ (iana : String → Option Zone) (code : String) (s : Int),
        CODE_TO_TZ.lookup code = some s →
          _resolve_tz iana code = .ok (fixedZone s))
    ∧ (∀ (iana : String → Option Zone) (code : String) (z : Zone),
        CODE_TO_TZ.lookup code = none → iana code = some z →
          _resolve_tz iana code = .ok z)
    ∧ (∀ (iana : String → Option Zone) (code : String) (e : UnknownZoneError),
        _resolve_tz iana code = .error e → e = { code := code })
    ∧ (∀ (iana : String → Option Zone) (code : String),
        (∃ e, _resolve_tz iana code = .error e) ↔
          (CODE_TO_TZ.lookup code = none ∧ iana code = none))
    ∧ (∀ iana : String → Option Zone, iana "Not/AZone" = none →
        _resolve_tz iana "Not/AZone" = .error { code := "Not/AZone" }) := by
  refine ⟨?_, ?_, ?_, ?_, ?_⟩
  · intro iana code s h
    simp [_resolve_tz, h]
  · intro iana code z h1 h2
    simp [_resolve_tz, h1, h2]
  · intro iana code e h
    unfold _resolve_tz at h
    cases hl : CODE_TO_TZ.lookup code with
    | some s => simp [hl] at h
    | none =>
      cases hi : iana code with
      | some z => simp [hl, hi] at h
      | none =>
        simp [hl, hi] at h
        exact h.symm
  · intro iana code
    constructor
    · rintro ⟨e, he⟩
      unfold _resolve_tz at he
      cases hl : CODE_TO_TZ.lookup code with
      | some s => simp [hl] at he
      | none =>
        cases hi : iana code with
        | some z => simp [hl, hi] at he
        | none => exact ⟨rfl, rfl⟩
    · rintro ⟨hl, hi⟩
      exact ⟨{ code := code }, by simp [_resolve_tz, hl, hi]⟩
  · intro iana h
    have hl : CODE_TO_TZ.lookup "Not/AZone" = none := by decide
    simp [_resolve_tz, hl, h]

/-- Witness for C2: with an empty IANA database, `"Not/AZone"` resolves to
the `UnknownZoneError` carrying the code. -/
theorem c2_resolve_spec_witness :
    _resolve_tz (fun _ => none) "Not/AZone" = .error { code := "Not/AZone" } :=
  c2_resolve_spec.2.2.2.2 (fun _ => none) rfl

/-- C4: the registry contains, for every whole-hour offset `h` from −12 to
+14 except 0, an alias named `UTC{sign}{hh}:00` bound to the fixed offset
of `h` hours (3600·h seconds), plus the curated abbreviations each bound
to one specific fixed offset with IST = +05:30; and every registered alias
resolves to a zone whose offset is the same at any two instants. -/
theorem c4_registry :
    (∀ h : Int, -12 ≤ h → h ≤ 14 → h ≠ 0 →
        CODE_TO_TZ.lookup ("UTC" ++ fmtSigned3 h ++ ":00") = some (3600 * h))
    ∧ CODE_TO_TZ.lookup "UTC" = some 0
    ∧ CODE_TO_TZ.lookup "GMT" = some 0
    ∧ CODE_TO_TZ.lookup "CET" = some 3600
    ∧ CODE_TO_TZ.lookup "CEST" = some 7200
    ∧ CODE_TO_TZ.lookup "EST" = some (-18000)
    ∧ CODE_TO_TZ.lookup "EDT" = some (-14400)
    ∧ CODE_TO_TZ.lookup "CST" = some (-21600)
    ∧ CODE_TO_TZ.lookup "CDT" = some (-18000)
    ∧ CODE_TO_TZ.lookup "MST" = some (-25200)
    ∧ CODE_TO_TZ.lookup "MDT" = some (-21600)
    ∧ CODE_TO_TZ.lookup "PST" = some (-28800)
    ∧ CODE_TO_TZ.lookup "PDT" = some (-25200)
    ∧ CODE_TO_TZ.lookup "BST" = some 3600
    ∧ CODE_TO_TZ.lookup "IST" = some 19800
    ∧ (∀ (code : String) (s : Int) (iana : String → Option Zone) (t1 t2 : Int),
        CODE_TO_TZ.lookup code = some s →
          ∃ z, _resolve_tz iana code = .ok z ∧ z.offsetAt t1 = z.offsetAt t2 ∧
            z.offsetAt t1 = s) := by
  refine ⟨?_, by decide, by decide, by decide, by decide, by decide, by decide,
    by decide, by decide, by decide, by decide, by decide, by decide,
    by decide, by decide, ?_⟩
  · intro h h1 h2 h3
    interval_cases h <;> first | (exact absurd rfl h3) | decide
  · intro code s iana t1 t2 hl
    exact ⟨fixedZone s, by simp [_resolve_tz, hl], rfl, rfl⟩

/-- Witness for C4: the synthesized alias at h = 5 is `"UTC+05:00"` with
offset 5 hours, and the `"IST"` alias resolves to the constant +05:30
offset at the distinct instants 0 and 1000. -/
theorem c4_registry_witness :
    CODE_TO_TZ.lookup ("UTC" ++ fmtSigned3 5 ++ ":00") = some (3600 * 5) ∧
    (∃ z, _resolve_tz (fun _ => none) "IST" = .ok z ∧
      z.offsetAt 0 = z.offsetAt 1000 ∧ z.offsetAt 0 = 19800) :=
  ⟨c4_registry.1 5 (by decide) (by decide) (by decide),
   c4_registry.2.2.2.2.2.2.2.2.2.2.2.2.2.2.2 "IST" 19800 (fun _ => none) 0 1000
     (by decide)⟩

/-- C5: `compare("UTC", "UTC+02:00", t)` yields sign +1, h = 2, m = 0 and
description `"UTC+02:00 is 2h 00m ahead of UTC"`; the mirrored call yields
sign −1 and description `"UTC is 2h 00m behind UTC+02:00"`; and
`compare("UTC", "IST", t)` yields h = 5, m = 30 — for every instant `t`
and any IANA database (the codes are aliases). -/
theorem c5_compare_examples (iana : String → Option Zone) (t : Int) :
    ((difference iana "UTC" "UTC+02:00" t).map
        (fun r => (r.sign, r.h, r.m, r.description))
      = .ok (1, 2, 0, "UTC+02:00 is 2h 00m ahead of UTC"))
    ∧ ((difference iana "UTC+02:00" "UTC" t).map
        (fun r => (r.sign, r.description))
      = .ok (-1, "UTC is 2h 00m behind UTC+02:00"))
    ∧ ((difference iana "UTC" "IST" t).map (fun r => (r.h, r.m))
      = .ok (5, 30)) := by
  refine ⟨?_, ?_, ?_⟩
  · have h : ((difference iana "UTC" "UTC+02:00" t).map
          (fun r => (r.sign, r.h, r.m, r.description)))
        = ((difference (fun _ => none) "UTC" "UTC+02:00" 0).map
          (fun r => (r.sign, r.h, r.m, r.description))) := rfl
    rw [h]; decide
  · have h : ((difference iana "UTC+02:00" "UTC" t).map
          (fun r => (r.sign, r.description)))
        = ((difference (fun _ => none) "UTC+02:00" "UTC" 0).map
          (fun r => (r.sign, r.description))) := rfl
    rw [h]; decide
  · have h : ((difference iana "UTC" "IST" t).map (fun r => (r.h, r.m)))
        = ((difference (fun _ => none) "UTC" "IST" 0).map
          (fun r => (r.h, r.m))) := rfl
    rw [h]; decide

/-- C6: for every code `A` that resolves and every instant `t`,
`compare(A, A, t)` yields sign 0 and description
`"A is the same time as A"`. -/
theorem c6_compare_self (iana : String → Option Zone) (A : String) (t : Int)
    (z : Zone) (hres : _resolve_tz iana A = .ok z) :
    ∃ r, difference iana A A t = .ok r ∧ r.sign = 0 ∧
      r.description = A ++ " is the same time as " ++ A := by
  refine ⟨diffResult z z A A t, by simp [difference, hres], ?_, ?_⟩
  · simp [diffResult]
  · simp [diffResult]

/-- Witness for C6: comparing `"UTC"` with itself at instant 0. -/
theorem c6_compare_self_witness :
    ∃ r, difference (fun _ => none) "UTC" "UTC" 0 = .ok r ∧ r.sign = 0 ∧
      r.description = "UTC" ++ " is the same time as " ++ "UTC" :=
  c6_compare_self (fun _ => none) "UTC" 0 (fixedZone 0) rfl

/-- C7: `difference` resolves both codes and fails exactly when either
resolution fails; the error from the first code propagates unchanged (and
shadows the second), the error from the second propagates when the first
resolves; and once both zones are resolved the computation always
succeeds — `UnknownZoneError` is the only error kind. -/
theorem c7_difference_errors :
    (∀ (iana : String → Option Zone) (a b : String) (t : Int),
        (∃ e, difference iana a b t = .error e) ↔
          ((∃ e, _resolve_tz iana a = .error e) ∨
           (∃ e, _resolve_tz iana b = .error e)))
    ∧ (∀ (iana : String → Option Zone) (a b : String) (t : Int)
        (e : UnknownZoneError),
        _resolve_tz iana a = .error e → difference iana a b t = .error e)
    ∧ (∀ (iana : String → Option Zone) (a b : String) (t : Int) (za : Zone)
        (e : UnknownZoneError),
        _resolve_tz iana a = .ok za → _resolve_tz iana b = .error e →
          difference iana a b t = .error e)
    ∧ (∀ (iana : String → Option Zone) (a b : String) (t : Int) (za zb : Zone),
        _resolve_tz iana a = .ok za → _resolve_tz iana b = .ok zb →
          difference iana a b t = .ok (diffResult za zb a b t)) := by
  refine ⟨?_, ?_, ?_, ?_⟩
  · intro iana a b t
    constructor
    · rintro ⟨e, he⟩
      unfold difference at he
      cases ha : _resolve_tz iana a with
      | error ea => exact Or.inl ⟨ea, rfl⟩
      | ok za =>
        cases hb : _resolve_tz iana b with
        | error eb => exact Or.inr ⟨eb, rfl⟩
        | ok zb => simp [ha, hb] at he
    · rintro (⟨e, he⟩ | ⟨e, he⟩)
      · exact ⟨e, by simp [difference, he]⟩
      · cases ha : _resolve_tz iana a with
        | error ea => exact ⟨ea, by simp [difference, ha]⟩
        | ok za => exact ⟨e, by simp [difference, ha, he]⟩
  · intro iana a b t e he
    simp [difference, he]
  · intro iana a b t za e ha he
    simp [difference, ha, he]
  · intro iana a b t za zb ha hb
    simp [difference, ha, hb]

/-- Witness for C7: with an empty IANA database, `"UTC"` vs `"IST"`
resolves on both sides and the comparison succeeds. -/
theorem c7_difference_errors_witness :
    difference (fun _ => none) "UTC" "IST" 0
      = .ok (diffResult (fixedZone 0) (fixedZone 19800) "UTC" "IST" 0) :=
  c7_difference_errors.2.2.2 (fun _ => none) "UTC" "IST" 0
    (fixedZone 0) (fixedZone 19800) rfl rfl

/-- C10 (implicit): whenever the two resolved zones have equal offsets at
the instant, the `pretty` field of the result is exactly `"+0h 00m"`: the sign
character is `+` because the code tests `delta >= 0`, and the hour digit
is rendered with `{h:01d}`, i.e. not zero-padded — even though the
description says "is the same time as". -/
theorem c10_equal_offsets_pretty (iana : String → Option Zone)
    (a b : String) (t : Int) (za zb : Zone)
    (ha : _resolve_tz iana a = .ok za) (hb : _resolve_tz iana b = .ok zb)
    (heq : za.offsetAt t = zb.offsetAt t) :
    ∃ r, difference iana a b t = .ok r ∧ r.sign = 0 ∧ r.pretty = "+0h 00m" ∧
      r.description = b ++ " is the same time as " ++ a := by
  refine ⟨diffResult za zb a b t, by simp [difference, ha, hb], ?_, ?_, ?_⟩
  · simp [diffResult, heq]
  · simp [diffResult, heq]
    rfl
  · simp [diffResult, heq]

/-- Witness for C10: `"UTC"` vs `"GMT"` (both offset 0) at instant 0. -/
theorem c10_equal_offsets_pretty_witness :
    ∃ r, difference (fun _ => none) "UTC" "GMT" 0 = .ok r ∧ r.sign = 0 ∧
      r.pretty = "+0h 00m" ∧
      r.description = "GMT" ++ " is the same time as " ++ "UTC" :=
  c10_equal_offsets_pretty (fun _ => none) "UTC" "GMT" 0
    (fixedZone 0) (fixedZone 0) rfl rfl rfl

/-- C1 counterexample: the difference computation has no carry from the
minute into the hour component.  Against a zone whose offset is
+2:59:56 — 10796 seconds, a delta of 2.9988 hours, the achievable
whole-second analogue of the synthetic 2.999-hour delta of the spec — the
fractional 59.93 minutes round to 60 and the code renders `"2h 60m"`,
which the claim says is never produced. -/
theorem c1_no_carry_counterexample :
    (difference lmtIana "UTC" "LMT+2:59:56" 0).map
        (fun r => (r.h, r.m, r.pretty_abs, r.description))
      = .ok (2, 60, "2h 60m", "LMT+2:59:56 is 2h 60m ahead of UTC") := by
  decide

/-- C1 (amended): the code never carries a rounded `m` of 60 into `h`;
instead, whenever both resolved offsets are whole minutes — true of every
fixed-offset alias and of modern IANA offsets — the rounded minute
component is at most 59, so a string like `"2h 60m"` does not arise; for
sub-minute offset differences the code renders `m = 60` as-is. -/
theorem c1_whole_minute_no_sixty (iana : String → Option Zone)
    (a b : String) (t : Int) (za zb : Zone)
    (ha : _resolve_tz iana a = .ok za) (hb : _resolve_tz iana b = .ok zb)
    (hma : za.offsetAt t % 60 = 0) (hmb : zb.offsetAt t % 60 = 0) :
    ∃ r, difference iana a b t = .ok r ∧ r.m ≤ 59 := by
  refine ⟨diffResult za zb a b t, by simp [difference, ha, hb], ?_⟩
  have hm : (diffResult za zb a b t).m
      = pyRound60 ((zb.offsetAt t - za.offsetAt t).natAbs % 3600) := by
    simp [diffResult]
  have hN : (zb.offsetAt t - za.offsetAt t).natAbs % 60 = 0 := by omega
  rw [hm]
  exact pyRound60_le_of_whole_minute _ hN

/-- Witness for C1 (amended): `"GMT"` vs `"IST"` (offsets 0 and +05:30,
both whole minutes) at instant 0 yields a minute component of at most
59. -/
theorem c1_whole_minute_no_sixty_witness :
    ∃ r, difference (fun _ => none) "GMT" "IST" 0 = .ok r ∧ r.m ≤ 59 :=
  c1_whole_minute_no_sixty (fun _ => none) "GMT" "IST" 0 (fixedZone 0)
    (fixedZone 19800) rfl rfl (by decide) (by decide)

/-- C3 counterexample: `fmt_offset` takes no instant parameter; it renders
the offset at the current wall-clock time (`datetime.now(tz)`), not at the
instant `at` of the surrounding computation.  For a zone crossing a
transition between the current time 0 and the queried instant 200, the
rendered offset `"+00:00"` is not the offset at instant 200, which the
`formatOffset` contract of the spec renders as `"+01:00"`. -/
theorem c3_fmt_offset_counterexample :
    (∃ z, _resolve_tz (fun cn => if cn = "Test/Var" then some dstZone else none)
        "Test/Var" = .ok z)
    ∧ fmt_offset dstZone 0 = "+00:00"
    ∧ specFormatOffset dstZone 200 = "+01:00"
    ∧ fmt_offset dstZone 0 ≠ specFormatOffset dstZone 200
    ∧ ¬ (∀ (z : Zone) (now t : Int), fmt_offset z now = specFormatOffset z t) := by
  refine ⟨⟨dstZone, rfl⟩, by decide, by decide, by decide, ?_⟩
  intro hall
  exact (by decide : fmt_offset dstZone 0 ≠ specFormatOffset dstZone 200)
    (hall dstZone 0 200)

/-- C3 (amended): `fmt_offset` computes the UTC offset of the zone at the
current time — the function takes no instant argument — in whole minutes
(flooring the seconds), and renders it exactly per the spec contract
`{sign}{HH}:{MM}` with `+` for offsets ≥ 0, two-digit zero
padding, and an offset of exactly 0 rendered as `"+00:00"`. -/
theorem c3_fmt_offset_renders_current (tz : Zone) (now : Int) :
    fmt_offset tz now = specRenderOffset (Int.fdiv (tz.offsetAt now) 60)
    ∧ (tz.offsetAt now = 0 → fmt_offset tz now = "+00:00") := by
  have h0 : fmt_offset tz now
      = specRenderOffset (Int.fdiv (tz.offsetAt now) 60) := rfl
  refine ⟨h0, ?_⟩
  intro h
  rw [h0, h]
  decide

/-- Witness for C3 (amended): a zero-offset zone renders as `"+00:00"`. -/
theorem c3_fmt_offset_renders_current_witness :
    fmt_offset (fixedZone 0) 5 = "+00:00" :=
  (c3_fmt_offset_renders_current (fixedZone 0) 5).2 rfl

/-- C8: with an explicit timestamp, `api_compare` attaches the offset of zone A
to the naive wall-clock reading (the instant handed to `difference` is
`naive` minus the offset zone A attributes to it, not `naive` itself as a
UTC reading), and when the zone is offset-consistent at that instant the
reported local time in zone A equals the timestamp the caller supplied. -/
theorem c8_explicit_timestamp (iana : String → Option Zone)
    (my_tz other_tz : String) (naive now : Int) (z : Zone)
    (hres : _resolve_tz iana my_tz = .ok z) :
    api_compare iana my_tz other_tz (some naive) now
      = difference iana my_tz other_tz (naive - z.offsetAtWall naive)
    ∧ (z.offsetAtWall naive ≠ 0 → naive - z.offsetAtWall naive ≠ naive)
    ∧ (∀ zb : Zone, _resolve_tz iana other_tz = .ok zb →
        z.offsetAt (naive - z.offsetAtWall naive) = z.offsetAtWall naive →
        ∃ r, api_compare iana my_tz other_tz (some naive) now = .ok r ∧
          r.a = naive) := by
  refine ⟨by simp [api_compare, hres], by intro h; omega, ?_⟩
  intro zb hzb hcons
  refine ⟨diffResult z zb my_tz other_tz (naive - z.offsetAtWall naive),
    by simp [api_compare, difference, hres, hzb], ?_⟩
  have hproj : (diffResult z zb my_tz other_tz
        (naive - z.offsetAtWall naive)).a
      = (naive - z.offsetAtWall naive)
        + z.offsetAt (naive - z.offsetAtWall naive) := by
    simp [diffResult]
  rw [hproj, hcons]
  omega

/-- Witness for C8: a naive reading 1000 in zone `"UTC+02:00"` is shifted
by −7200 seconds before comparison, and the reported zone-A local time is
the reading the caller supplied. -/
theorem c8_explicit_timestamp_witness :
    (api_compare (fun _ => none) "UTC+02:00" "UTC" (some 1000) 0
      = difference (fun _ => none) "UTC+02:00" "UTC"
          (1000 - (fixedZone 7200).offsetAtWall 1000))
    ∧ (1000 - (fixedZone 7200).offsetAtWall 1000 ≠ (1000 : Int))
    ∧ (∃ r, api_compare (fun _ => none) "UTC+02:00" "UTC" (some 1000) 0
        = .ok r ∧ r.a = 1000) := by
  have h := c8_explicit_timestamp (fun _ => none) "UTC+02:00" "UTC" 1000 0
    (fixedZone 7200) rfl
  exact ⟨h.1, h.2.1 (by decide), h.2.2 (fixedZone 0) rfl rfl⟩

/-- C9: for every whole-minute offset in [−720, +840], `fmt_offset` of a
zone reporting that offset returns a string of exactly 6 characters of
the shape sign, two digits, colon, two digits. -/
theorem c9_fmt_offset_total (tz : Zone) (now mins : Int)
    (hoff : tz.offsetAt now = 60 * mins)
    (h1 : -720 ≤ mins) (h2 : mins ≤ 840) :
    (fmt_offset tz now).length = 6
    ∧ offsetPatternOk (fmt_offset tz now) = true := by
  have hdiv : Int.fdiv (60 * mins) 60 = mins :=
    Int.mul_fdiv_cancel_left mins (by norm_num)
  have hq : mins.natAbs / 60 < 100 := by omega
  have hr : mins.natAbs % 60 < 100 := by omega
  obtain ⟨a1, a2, hpa, ha1, ha2⟩ := pad2_two_digits (mins.natAbs / 60) hq
  obtain ⟨b1, b2, hpb, hb1, hb2⟩ := pad2_two_digits (mins.natAbs % 60) hr
  obtain ⟨c, hc, hcpm⟩ : ∃ c : Char,
      (if (0 : Int) ≤ mins then "+" else "-") = String.mk [c]
        ∧ (c == '+' || c == '-') = true := by
    split_ifs
    · exact ⟨'+', rfl, rfl⟩
    · exact ⟨'-', rfl, rfl⟩
  have hfmt : fmt_offset tz now
      = (if (0 : Int) ≤ mins then "+" else "-") ++ pad2 (mins.natAbs / 60)
        ++ ":" ++ pad2 (mins.natAbs % 60) := by
    simp only [fmt_offset, hoff, hdiv]
  have hdata : (fmt_offset tz now).data
      = c :: a1 :: a2 :: ':' :: b1 :: b2 :: [] := by
    rw [hfmt, hc]
    simp only [String.data_append, hpa, hpb]
    rfl
  constructor
  · have hlen : (fmt_offset tz now).length = (fmt_offset tz now).data.length :=
      rfl
    rw [hlen, hdata]
    rfl
  · simp only [offsetPatternOk, hdata]
    simp [hcpm, ha1, ha2, hb1, hb2]

/-- Witness for C9: the extreme offset +840 minutes renders as 6 pattern
characters. -/
theorem c9_fmt_offset_total_witness :
    (fmt_offset (fixedZone (60 * 840)) 0).length = 6
    ∧ offsetPatternOk (fmt_offset (fixedZone (60 * 840)) 0) = true :=
  c9_fmt_offset_total (fixedZone (60 * 840)) 0 840 rfl (by decide) (by decide)
